import Mathlib

/-!
Shallow embedding of the employee validation-and-mapping pipeline of the
vulcan repository (request DTO sanitization/validation, response DTO
projections, repository and service orchestration), together with proofs
of the specification claims about it.

Sources embedded:
- src/dto/request/employee.request.dto.ts (CreateEmployeeRequestDto,
  UpdateEmployeeRequestDto)
- src/dto/response/employee.response.dto.ts (the three response DTOs)
- the EmployeeMapper
- src/repositories/employee.repository.js (TypeScript variant)
- src/services/employee.service.ts
- the EmployeeController success path for GET /employees

JavaScript machine values are modelled explicitly: numbers as rationals
extended with NaN and the two infinities, dates as a validity marker plus a
millisecond timestamp, and record fields as a three-way absent / null /
value state, so that truthiness tests and the distinction between a missing
property and a property whose value is undefined are faithful to the source.
-/

/-- Model of a JavaScript number: NaN, the two infinities, or a finite value
(finite values are modelled as exact rationals; the claims proved below do
not depend on binary floating-point rounding). -/
inductive JsNum where
  | nan
  | inf
  | negInf
  | num (q : ℚ)
deriving DecidableEq, Repr

/-- JavaScript truthiness of a number: NaN and 0 are falsy. -/
def JsNum.truthy : JsNum → Bool
  | .nan => false
  | .num q => q != 0
  | _ => true

/-- The isNaN test on a number. -/
def JsNum.isNaNb : JsNum → Bool
  | .nan => true
  | _ => false

/-- The JavaScript comparison n <= 0 (false on NaN). -/
def JsNum.leZero : JsNum → Bool
  | .nan => false
  | .inf => false
  | .negInf => true
  | .num q => q ≤ 0

/-- The JavaScript comparison n > 0 (false on NaN). -/
def JsNum.posb : JsNum → Bool
  | .inf => true
  | .num q => 0 < q
  | _ => false

/-- Model of a JavaScript Date object: either the Invalid Date marker (its
getTime() is NaN) or a valid date carrying its millisecond timestamp. -/
inductive JsDate where
  | invalid
  | valid (ms : Int)
deriving DecidableEq, Repr

/-- Whether getTime() of the date is NaN. -/
def JsDate.isInvalid : JsDate → Bool
  | .invalid => true
  | _ => false

/-- Numeric value of a digit character. -/
def digitVal (c : Char) : Nat := c.toNat - 48

/-- Value of a string of decimal digits. -/
def digitsToNat (cs : List Char) : Nat :=
  cs.foldl (fun a c => a * 10 + digitVal c) 0

/-- Ten to an integer power, as a rational. -/
def powTen (e : Int) : ℚ :=
  if 0 ≤ e then ((10 : ℚ) ^ e.toNat) else 1 / ((10 : ℚ) ^ (-e).toNat)

/-- Exponent suffix of a number literal: an optional sign followed by
digits; an ill-formed exponent contributes nothing. -/
def parseExpSuffix (cs : List Char) : Int :=
  match cs with
  | '-' :: r =>
      if (r.takeWhile Char.isDigit).isEmpty then 0
      else -(digitsToNat (r.takeWhile Char.isDigit) : Int)
  | '+' :: r =>
      if (r.takeWhile Char.isDigit).isEmpty then 0
      else (digitsToNat (r.takeWhile Char.isDigit) : Int)
  | r =>
      if (r.takeWhile Char.isDigit).isEmpty then 0
      else (digitsToNat (r.takeWhile Char.isDigit) : Int)

/-- Model of the ECMAScript parseFloat builtin (used by the DTO
constructors to coerce a string salary): leading whitespace is skipped, an
optional sign, then either the Infinity literal or a decimal literal with
optional fraction and exponent; if no numeric prefix exists the result is
NaN.  Finite results are exact rationals. -/
def parseFloat (s : String) : JsNum :=
  let cs := s.data.dropWhile Char.isWhitespace
  let neg : Bool := cs.head? = some '-'
  let cs := if cs.head? = some '-' || cs.head? = some '+' then cs.tail else cs
  if cs.take 8 = "Infinity".data then
    (if neg then JsNum.negInf else JsNum.inf)
  else
    let ip := cs.takeWhile Char.isDigit
    let rest := cs.drop ip.length
    let hasDot : Bool := rest.head? = some '.'
    let fp := if hasDot then rest.tail.takeWhile Char.isDigit else []
    let rest2 := if hasDot then rest.tail.drop fp.length else rest
    if ip.isEmpty && fp.isEmpty then JsNum.nan
    else
      let mant : ℚ := (digitsToNat ip : ℚ) + (digitsToNat fp : ℚ) / powTen (fp.length : Int)
      let e : Int :=
        match rest2 with
        | 'e' :: r => parseExpSuffix r
        | 'E' :: r => parseExpSuffix r
        | _ => 0
      JsNum.num ((if neg then (-1 : ℚ) else 1) * mant * powTen e)

/-- Whether a year is a leap year. -/
def isLeapYear (y : Int) : Bool :=
  y % 4 == 0 && (y % 100 != 0 || y % 400 == 0)

/-- Number of days in a month of a year. -/
def daysInMonth (y : Int) (m : Nat) : Nat :=
  if m = 2 then (if isLeapYear y then 29 else 28)
  else if m = 4 || m = 6 || m = 9 || m = 11 then 30
  else 31

/-- Days from the Unix epoch to a civil date (proleptic Gregorian). -/
def daysFromCivil (y : Int) (m d : Nat) : Int :=
  let y2 : Int := if m ≤ 2 then y - 1 else y
  let era : Int := (if 0 ≤ y2 then y2 else y2 - 399) / 400
  let yoe : Int := y2 - era * 400
  let mp : Int := ((m : Int) + 9) % 12
  let doy : Int := (153 * mp + 2) / 5 + (d : Int) - 1
  let doe : Int := yoe * 365 + yoe / 4 - yoe / 100 + doy
  era * 146097 + doe - 719468

/-- Model of the Date constructor string parser, restricted to ISO calendar
date strings of the form YYYY-MM-DD (the date format the repository
documents and exercises); any other string yields the Invalid Date marker. -/
def parseDate (s : String) : JsDate :=
  match s.data with
  | [y1, y2, y3, y4, '-', m1, m2, '-', d1, d2] =>
      if (y1.isDigit && y2.isDigit && y3.isDigit && y4.isDigit &&
          m1.isDigit && m2.isDigit && d1.isDigit && d2.isDigit) then
        let y : Int := (digitsToNat [y1, y2, y3, y4] : Int)
        let m : Nat := digitsToNat [m1, m2]
        let d : Nat := digitsToNat [d1, d2]
        if 1 ≤ m && m ≤ 12 && 1 ≤ d && d ≤ daysInMonth y m then
          JsDate.valid (daysFromCivil y m d * 86400000)
        else JsDate.invalid
      else JsDate.invalid
  | _ => JsDate.invalid

/-- Characters admitted by each segment of the email regular expression:
anything that is neither whitespace nor the at sign. -/
def emailSegChar (c : Char) : Bool :=
  !c.isWhitespace && c != '@'

/-- Model of the email regular expression used by both request DTOs:
one or more non-whitespace-non-at characters, an at sign, one or more such
characters, a dot, and one or more such characters (full-string match).
Both segments around the matched dot may themselves contain dots, so with
backtracking the part after the at sign matches exactly when it carries a
dot at an interior position: at least one character before it and one after
it (so x@a.b. is accepted, the final segment being "b."). -/
def isValidEmail (email : String) : Bool :=
  let cs := email.data
  let a := cs.takeWhile (fun c => c != '@')
  match cs.drop a.length with
  | '@' :: d =>
      a.length > 0 && a.all emailSegChar && d.all emailSegChar &&
        d.tail.dropLast.any (fun ch => ch == '.')
  | _ => false

/-- State of one property of a raw JSON request body: absent, present with
value null, or present with a value. -/
inductive RawField (α : Type) where
  | undef
  | nullv
  | val (a : α)
deriving DecidableEq, Repr

/-- A salary in the raw body may arrive as a number or as numeric text. -/
inductive SalaryVal where
  | num (n : JsNum)
  | str (s : String)
deriving DecidableEq, Repr

/-- A hire date in the raw body may arrive as a string or as a Date. -/
inductive DateVal where
  | str (s : String)
  | date (d : JsDate)
deriving DecidableEq, Repr

/-- JavaScript truthiness of a hire-date input value (the empty string is
falsy; a Date object is always truthy, even an Invalid Date). -/
def DateVal.truthy : DateVal → Bool
  | .str s => s != ""
  | .date _ => true

/-- The Date constructor applied to a string or Date input (copying a Date
preserves its invalidity). -/
def newDateOf : DateVal → JsDate
  | .str s => parseDate s
  | .date d => d

/-- Raw input record for the create and update endpoints: the recognized
keys of the request body, each absent, null, or carrying a value. -/
structure CreateEmployeeData where
  name : RawField String := .undef
  email : RawField String := .undef
  position : RawField String := .undef
  department : RawField String := .undef
  salary : RawField SalaryVal := .undef
  hireDate : RawField DateVal := .undef
deriving DecidableEq, Repr

/-- Validation verdict: the validity flag and the ordered error list. -/
structure ValidationResult where
  isValid : Bool
  errors : List String
deriving DecidableEq, Repr

/-- CreateEmployeeRequestDto after construction: optional chaining turns
both absent and null string fields into undefined; salary keeps the
three-way state because the source coerces it without optional chaining. -/
structure CreateEmployeeRequestDto where
  name : Option String
  email : Option String
  position : Option String
  department : Option String
  salary : RawField JsNum
  hireDate : Option JsDate
deriving DecidableEq, Repr

/-- Model of the ECMAScript trim method: leading and trailing whitespace
removed (defined over the character list so that concrete inputs evaluate
inside the kernel). -/
def jsTrim (s : String) : String :=
  ⟨((s.data.dropWhile Char.isWhitespace).reverse.dropWhile Char.isWhitespace).reverse⟩

/-- Model of the ECMAScript toLowerCase method (ASCII case folding). -/
def jsToLower (s : String) : String :=
  ⟨s.data.map Char.toLower⟩

/-- Sanitization of an optional string field: value fields are trimmed,
absent and null become undefined. -/
def trimOpt : RawField String → Option String
  | .val s => some (jsTrim s)
  | _ => none

/-- Sanitization of the email field: trimmed and lowercased. -/
def trimLowerOpt : RawField String → Option String
  | .val s => some (jsToLower (jsTrim s))
  | _ => none

/-- Salary coercion of the create constructor: string salaries go through
parseFloat, numbers pass unchanged, and null stays null since the source
tests only typeof before coercing. -/
def coerceSalary : RawField SalaryVal → RawField JsNum
  | .undef => .undef
  | .nullv => .nullv
  | .val (.num n) => .val n
  | .val (.str s) => .val (parseFloat s)

/-- Hire-date coercion of the create constructor: a truthy input goes
through the Date constructor, a falsy input (absent, null, empty string)
becomes undefined. -/
def coerceHireDate : RawField DateVal → Option JsDate
  | .val v => if v.truthy then some (newDateOf v) else none
  | _ => none

/-- The CreateEmployeeRequestDto constructor. -/
def CreateEmployeeRequestDto.ofData (data : CreateEmployeeData) : CreateEmployeeRequestDto :=
  { name := trimOpt data.name
    email := trimLowerOpt data.email
    position := trimOpt data.position
    department := trimOpt data.department
    salary := coerceSalary data.salary
    hireDate := coerceHireDate data.hireDate }

/-- JavaScript truthiness of an optional string (undefined and the empty
string are falsy). -/
def strTruthy : Option String → Bool
  | none => false
  | some s => s != ""

/-- Truthiness of the salary field of the DTO. -/
def salaryTruthy : RawField JsNum → Bool
  | .val n => n.truthy
  | _ => false

/-- First if-block of the create validate method: push the name error. -/
def pushNameError (name : Option String) (errors : List String) : List String :=
  if !strTruthy name then errors ++ ["Name is required"] else errors

/-- Second if-block of the create validate method: push the email errors. -/
def pushEmailErrors (email : Option String) (errors : List String) : List String :=
  match email with
  | none => errors ++ ["Email is required"]
  | some e =>
      if e == "" then errors ++ ["Email is required"]
      else if !isValidEmail e then errors ++ ["Invalid email format"]
      else errors

/-- Third if-block of the create validate method: push the position error. -/
def pushPositionError (position : Option String) (errors : List String) : List String :=
  if !strTruthy position then errors ++ ["Position is required"] else errors

/-- Fourth if-block of the create validate method: push the department error. -/
def pushDepartmentError (department : Option String) (errors : List String) : List String :=
  if !strTruthy department then errors ++ ["Department is required"] else errors

/-- Fifth if-block of the create validate method: push the salary errors
(a falsy salary, so also undefined, null, NaN or 0, is reported missing;
a truthy one that is NaN or not positive is reported non-positive). -/
def pushSalaryErrors (salary : RawField JsNum) (errors : List String) : List String :=
  match salary with
  | .val n =>
      if !n.truthy then errors ++ ["Salary is required"]
      else if n.isNaNb || n.leZero then errors ++ ["Salary must be a positive number"]
      else errors
  | _ => errors ++ ["Salary is required"]

/-- Sixth if-block of the create validate method: push the hire-date errors. -/
def pushHireDateErrors (hireDate : Option JsDate) (errors : List String) : List String :=
  match hireDate with
  | none => errors ++ ["Hire date is required"]
  | some d => if d.isInvalid then errors ++ ["Invalid hire date format"] else errors

/-- The validate method of CreateEmployeeRequestDto, with the error pushes
in source order: name, email, position, department, salary, hireDate. -/
def CreateEmployeeRequestDto.validate (dto : CreateEmployeeRequestDto) : ValidationResult :=
  let errors : List String := []
  let errors := pushNameError dto.name errors
  let errors := pushEmailErrors dto.email errors
  let errors := pushPositionError dto.position errors
  let errors := pushDepartmentError dto.department errors
  let errors := pushSalaryErrors dto.salary errors
  let errors := pushHireDateErrors dto.hireDate errors
  { isValid := errors.length == 0, errors := errors }

/-- Errors the name check alone can contribute. -/
def createNameErrors (name : Option String) : List String :=
  if strTruthy name then [] else ["Name is required"]

/-- Errors the email check alone can contribute. -/
def createEmailErrors (email : Option String) : List String :=
  match email with
  | none => ["Email is required"]
  | some e =>
      if e == "" then ["Email is required"]
      else if !isValidEmail e then ["Invalid email format"]
      else []

/-- Errors the position check alone can contribute. -/
def createPositionErrors (position : Option String) : List String :=
  if strTruthy position then [] else ["Position is required"]

/-- Errors the department check alone can contribute. -/
def createDepartmentErrors (department : Option String) : List String :=
  if strTruthy department then [] else ["Department is required"]

/-- Errors the salary check alone can contribute. -/
def createSalaryErrors (salary : RawField JsNum) : List String :=
  match salary with
  | .val n =>
      if !n.truthy then ["Salary is required"]
      else if n.isNaNb || n.leZero then ["Salary must be a positive number"]
      else []
  | _ => ["Salary is required"]

/-- Errors the hire-date check alone can contribute. -/
def createHireDateErrors (hireDate : Option JsDate) : List String :=
  match hireDate with
  | none => ["Hire date is required"]
  | some d => if d.isInvalid then ["Invalid hire date format"] else []

lemma pushNameError_eq (name : Option String) (l : List String) :
    pushNameError name l = l ++ createNameErrors name := by
  unfold pushNameError createNameErrors
  cases h : strTruthy name <;> simp [h]

lemma pushEmailErrors_eq (email : Option String) (l : List String) :
    pushEmailErrors email l = l ++ createEmailErrors email := by
  unfold pushEmailErrors createEmailErrors
  cases email with
  | none => simp
  | some e => dsimp only; split_ifs <;> simp

lemma pushPositionError_eq (position : Option String) (l : List String) :
    pushPositionError position l = l ++ createPositionErrors position := by
  unfold pushPositionError createPositionErrors
  cases h : strTruthy position <;> simp [h]

lemma pushDepartmentError_eq (department : Option String) (l : List String) :
    pushDepartmentError department l = l ++ createDepartmentErrors department := by
  unfold pushDepartmentError createDepartmentErrors
  cases h : strTruthy department <;> simp [h]

lemma pushSalaryErrors_eq (salary : RawField JsNum) (l : List String) :
    pushSalaryErrors salary l = l ++ createSalaryErrors salary := by
  unfold pushSalaryErrors createSalaryErrors
  cases salary with
  | val n => dsimp only; split_ifs <;> simp
  | undef => simp
  | nullv => simp

lemma pushHireDateErrors_eq (hireDate : Option JsDate) (l : List String) :
    pushHireDateErrors hireDate l = l ++ createHireDateErrors hireDate := by
  unfold pushHireDateErrors createHireDateErrors
  cases hireDate with
  | none => simp
  | some d => dsimp only; split_ifs <;> simp

lemma create_validate_errors (dto : CreateEmployeeRequestDto) :
    dto.validate.errors =
      createNameErrors dto.name ++ createEmailErrors dto.email ++
      createPositionErrors dto.position ++ createDepartmentErrors dto.department ++
      createSalaryErrors dto.salary ++ createHireDateErrors dto.hireDate := by
  show pushHireDateErrors dto.hireDate (pushSalaryErrors dto.salary
      (pushDepartmentError dto.department (pushPositionError dto.position
        (pushEmailErrors dto.email (pushNameError dto.name []))))) = _
  rw [pushNameError_eq, pushEmailErrors_eq, pushPositionError_eq,
    pushDepartmentError_eq, pushSalaryErrors_eq, pushHireDateErrors_eq]
  simp [List.append_assoc]

lemma create_validate_isValid (dto : CreateEmployeeRequestDto) :
    dto.validate.isValid = true ↔ dto.validate.errors = [] := by
  have h : dto.validate.isValid = (dto.validate.errors.length == 0) := rfl
  rw [h]
  simp [List.length_eq_zero]

lemma createNameErrors_sub (s : Option String) :
    createNameErrors s ⊆ ["Name is required"] := by
  unfold createNameErrors; split_ifs <;> simp

lemma createEmailErrors_sub (e : Option String) :
    createEmailErrors e ⊆ ["Email is required", "Invalid email format"] := by
  unfold createEmailErrors
  cases e with
  | none => simp
  | some s => dsimp only; split_ifs <;> simp

lemma createPositionErrors_sub (s : Option String) :
    createPositionErrors s ⊆ ["Position is required"] := by
  unfold createPositionErrors; split_ifs <;> simp

lemma createDepartmentErrors_sub (s : Option String) :
    createDepartmentErrors s ⊆ ["Department is required"] := by
  unfold createDepartmentErrors; split_ifs <;> simp

lemma createSalaryErrors_sub (s : RawField JsNum) :
    createSalaryErrors s ⊆ ["Salary is required", "Salary must be a positive number"] := by
  unfold createSalaryErrors
  cases s with
  | val n => dsimp only; split_ifs <;> simp
  | undef => simp
  | nullv => simp

lemma createHireDateErrors_sub (d : Option JsDate) :
    createHireDateErrors d ⊆ ["Hire date is required", "Invalid hire date format"] := by
  unfold createHireDateErrors
  cases d with
  | none => simp
  | some x => dsimp only; split_ifs <;> simp

/-- C1: for every raw create input, validate() collects every applicable
field error (it does not stop at the first): the error list is exactly the
concatenation of the independent per-field error lists, in the fixed order
name, email, position, department, salary, hireDate, and isValid is true
exactly when the error list is empty. -/
theorem claimC1 (data : CreateEmployeeData) :
    ((CreateEmployeeRequestDto.ofData data).validate).errors =
      createNameErrors (CreateEmployeeRequestDto.ofData data).name ++
      createEmailErrors (CreateEmployeeRequestDto.ofData data).email ++
      createPositionErrors (CreateEmployeeRequestDto.ofData data).position ++
      createDepartmentErrors (CreateEmployeeRequestDto.ofData data).department ++
      createSalaryErrors (CreateEmployeeRequestDto.ofData data).salary ++
      createHireDateErrors (CreateEmployeeRequestDto.ofData data).hireDate ∧
    (((CreateEmployeeRequestDto.ofData data).validate).isValid = true ↔
      ((CreateEmployeeRequestDto.ofData data).validate).errors = []) :=
  ⟨create_validate_errors _, create_validate_isValid _⟩

/-- Create input with a present, numeric, zero salary and every other field
valid: the input refuting claim C2 as stated. -/
def zeroSalaryData : CreateEmployeeData :=
  { name := .val "John Doe"
    email := .val "john@example.com"
    position := .val "Engineer"
    department := .val "Engineering"
    salary := .val (.num (.num 0))
    hireDate := .val (.str "2024-01-15") }

/-- C2 counterexample: with salary present, numeric and equal to 0, the
create validate() reports the missing-field message, not the positivity
message — the opposite of what the claim states for salary = 0 (0 is falsy,
so the source takes the required-branch). -/
theorem claimC2_counterexample :
    "Salary is required" ∈ ((CreateEmployeeRequestDto.ofData zeroSalaryData).validate).errors ∧
    "Salary must be a positive number" ∉
      ((CreateEmployeeRequestDto.ofData zeroSalaryData).validate).errors := by
  constructor
  · decide
  · decide

/-- C2 (amended): for every create input whose salary is present and
numeric with a truthy value (so not 0 and not NaN) that compares at most 0
— a strictly negative finite value or negative infinity — validate()
returns errors containing the positivity message and not the missing-field
message; for salary 0 or NaN the source instead reports the missing-field
message. -/
theorem claimC2 (data : CreateEmployeeData) (n : JsNum)
    (hs : data.salary = RawField.val (SalaryVal.num n))
    (ht : n.truthy = true) (hle : n.leZero = true) :
    "Salary must be a positive number" ∈
      ((CreateEmployeeRequestDto.ofData data).validate).errors ∧
    "Salary is required" ∉ ((CreateEmployeeRequestDto.ofData data).validate).errors := by
  have hsal : (CreateEmployeeRequestDto.ofData data).salary = RawField.val n := by
    simp [CreateEmployeeRequestDto.ofData, hs, coerceSalary]
  have hseg : createSalaryErrors (CreateEmployeeRequestDto.ofData data).salary =
      ["Salary must be a positive number"] := by
    rw [hsal]
    unfold createSalaryErrors
    simp [ht, hle]
  rw [create_validate_errors]
  constructor
  · simp [hseg]
  · intro hmem
    simp only [List.mem_append] at hmem
    rcases hmem with ((((h | h) | h) | h) | h) | h
    · have := createNameErrors_sub _ h; simp at this
    · have := createEmailErrors_sub _ h; simp at this
    · have := createPositionErrors_sub _ h; simp at this
    · have := createDepartmentErrors_sub _ h; simp at this
    · rw [hseg] at h; simp at h
    · have := createHireDateErrors_sub _ h; simp at this

/-- Create input with a present, numeric, strictly negative salary. -/
def negativeSalaryData : CreateEmployeeData :=
  { salary := .val (.num (.num (-5))) }

/-- Witness for the amended C2 theorem at a concrete negative salary. -/
theorem claimC2_witness :
    negativeSalaryData.salary = RawField.val (SalaryVal.num (JsNum.num (-5))) ∧
    (JsNum.num (-5)).truthy = true ∧ (JsNum.num (-5)).leZero = true ∧
    ("Salary must be a positive number" ∈
        ((CreateEmployeeRequestDto.ofData negativeSalaryData).validate).errors ∧
      "Salary is required" ∉
        ((CreateEmployeeRequestDto.ofData negativeSalaryData).validate).errors) :=
  ⟨rfl, by decide, by decide,
    claimC2 negativeSalaryData (JsNum.num (-5)) rfl (by decide) (by decide)⟩

/-- Persisted employee row of the employees table. -/
structure Employee where
  id : Int
  name : String
  email : String
  position : String
  department : String
  salary : JsNum
  hireDate : JsDate
  createdAt : Int
  updatedAt : Int
deriving DecidableEq, Repr

/-- Value stored under one key of an emitted JSON object.  The salary
constructor tags the decimal-string rendering (toString of the stored
Decimal) without committing to a digit sequence, which no claim inspects. -/
inductive FieldValue where
  | vNum (n : Int)
  | vStr (s : String)
  | vSalaryStr (q : JsNum)
  | vDate (d : JsDate)
deriving DecidableEq, Repr

/-- An emitted JSON object: its own enumerable properties in order. -/
abbrev JsObject := List (String × FieldValue)

/-- Keys of an emitted JSON object. -/
def objKeys (o : JsObject) : List String := o.map Prod.fst

/-- EmployeeResponseDto (public projection): every field except the id. -/
def EmployeeResponseDto.ofEmployee (e : Employee) : JsObject :=
  [("name", .vStr e.name), ("email", .vStr e.email), ("position", .vStr e.position),
   ("department", .vStr e.department), ("salary", .vSalaryStr e.salary),
   ("hireDate", .vDate e.hireDate), ("createdAt", .vNum e.createdAt),
   ("updatedAt", .vNum e.updatedAt)]

/-- EmployeeDetailResponseDto (full-detail projection): id plus every field. -/
def EmployeeDetailResponseDto.ofEmployee (e : Employee) : JsObject :=
  [("id", .vNum e.id), ("name", .vStr e.name), ("email", .vStr e.email),
   ("position", .vStr e.position), ("department", .vStr e.department),
   ("salary", .vSalaryStr e.salary), ("hireDate", .vDate e.hireDate),
   ("createdAt", .vNum e.createdAt), ("updatedAt", .vNum e.updatedAt)]

/-- EmployeeListResponseDto (list projection): minimal fields, no salary. -/
def EmployeeListResponseDto.ofEmployee (e : Employee) : JsObject :=
  [("id", .vNum e.id), ("name", .vStr e.name), ("email", .vStr e.email),
   ("position", .vStr e.position), ("department", .vStr e.department)]

/-- Mapper: single entity to the public projection, null-tolerant. -/
def EmployeeMapper.toResponseDto : Option Employee → Option JsObject
  | none => none
  | some e => some (EmployeeResponseDto.ofEmployee e)

/-- Mapper: single entity to the full-detail projection, null-tolerant. -/
def EmployeeMapper.toDetailResponseDto : Option Employee → Option JsObject
  | none => none
  | some e => some (EmployeeDetailResponseDto.ofEmployee e)

/-- Mapper: single entity to the list projection, null-tolerant. -/
def EmployeeMapper.toListResponseDto : Option Employee → Option JsObject
  | none => none
  | some e => some (EmployeeListResponseDto.ofEmployee e)

/-- Mapper: array variant of the public projection (element-wise map, null
results filtered out). -/
def EmployeeMapper.toResponseDtoArray (employees : List Employee) : List JsObject :=
  (employees.map (fun e => EmployeeMapper.toResponseDto (some e))).filterMap id

/-- Mapper: array variant of the full-detail projection. -/
def EmployeeMapper.toDetailResponseDtoArray (employees : List Employee) : List JsObject :=
  (employees.map (fun e => EmployeeMapper.toDetailResponseDto (some e))).filterMap id

/-- Mapper: array variant of the list projection. -/
def EmployeeMapper.toListResponseDtoArray (employees : List Employee) : List JsObject :=
  (employees.map (fun e => EmployeeMapper.toListResponseDto (some e))).filterMap id

/-- Insertion step of the createdAt-descending ordering of findAll. -/
def insertByCreatedAtDesc (e : Employee) : List Employee → List Employee
  | [] => [e]
  | x :: xs =>
      if e.createdAt ≥ x.createdAt then e :: x :: xs
      else x :: insertByCreatedAtDesc e xs

/-- Repository findAll: every employee, ordered by creation time descending. -/
def EmployeeRepository.findAll (db : List Employee) : List Employee :=
  db.foldr insertByCreatedAtDesc []

/-- Service getAllEmployees: a plain pass-through to the repository. -/
def EmployeeService.getAllEmployees (db : List Employee) : List Employee :=
  EmployeeRepository.findAll db

/-- Success-path data array of the GET /employees controller operation: the
service result mapped through toResponseDtoArray (the public projection),
exactly as the controller does. -/
def EmployeeController.getAllEmployeesData (db : List Employee) : List JsObject :=
  EmployeeMapper.toResponseDtoArray (EmployeeService.getAllEmployees db)

/-- C8: the list projection never contains a salary key, the public
projection never contains an id key, and the full-detail projection
contains both. -/
theorem claimC8 (e : Employee) :
    "salary" ∉ objKeys (EmployeeListResponseDto.ofEmployee e) ∧
    "id" ∉ objKeys (EmployeeResponseDto.ofEmployee e) ∧
    "id" ∈ objKeys (EmployeeDetailResponseDto.ofEmployee e) ∧
    "salary" ∈ objKeys (EmployeeDetailResponseDto.ofEmployee e) := by
  refine ⟨?_, ?_, ?_, ?_⟩ <;>
    simp [objKeys, EmployeeListResponseDto.ofEmployee, EmployeeResponseDto.ofEmployee,
      EmployeeDetailResponseDto.ofEmployee]

/-- A concrete persisted employee used by several concrete evaluations. -/
def sampleEmployee : Employee :=
  { id := 1, name := "John Doe", email := "john@example.com", position := "Engineer",
    department := "Engineering", salary := JsNum.num 75000,
    hireDate := JsDate.valid 1705276800000, createdAt := 0, updatedAt := 0 }

/-- C3 counterexample: on a database holding one employee, the data array
emitted by the GET /employees controller operation does not consist of
list-projection elements — its element has no id key and does contain a
salary key, because the controller maps through toResponseDtoArray (the
public projection) rather than the list projection. -/
theorem claimC3_counterexample :
    ¬ (∀ o ∈ EmployeeController.getAllEmployeesData [sampleEmployee],
        "id" ∈ objKeys o ∧ "salary" ∉ objKeys o) := by
  decide

/-- C3 (amended): every element of the data array emitted by the GET
/employees controller operation is a public-projection object: it contains
no id key and does contain a salary key. -/
theorem claimC3 (db : List Employee) (o : JsObject)
    (ho : o ∈ EmployeeController.getAllEmployeesData db) :
    "id" ∉ objKeys o ∧ "salary" ∈ objKeys o := by
  have hex : ∃ e, o = EmployeeResponseDto.ofEmployee e := by
    simp only [EmployeeController.getAllEmployeesData, EmployeeMapper.toResponseDtoArray,
      EmployeeMapper.toResponseDto, List.mem_filterMap, List.mem_map, id_eq] at ho
    obtain ⟨oo, ⟨e, _, hoe⟩, hoo⟩ := ho
    exact ⟨e, (Option.some.inj (hoe.trans hoo)).symm⟩
  obtain ⟨e, rfl⟩ := hex
  constructor
  · simp [objKeys, EmployeeResponseDto.ofEmployee]
  · simp [objKeys, EmployeeResponseDto.ofEmployee]

/-- Witness for the amended C3 theorem on a one-row database. -/
theorem claimC3_witness :
    EmployeeResponseDto.ofEmployee sampleEmployee ∈
        EmployeeController.getAllEmployeesData [sampleEmployee] ∧
    ("id" ∉ objKeys (EmployeeResponseDto.ofEmployee sampleEmployee) ∧
      "salary" ∈ objKeys (EmployeeResponseDto.ofEmployee sampleEmployee)) :=
  ⟨by decide, claimC3 [sampleEmployee] _ (by decide)⟩

/-- Own-property state of a string field of the update DTO: the property
may be absent, present with value undefined (a null input goes through
optional chaining), or present with a string. -/
inductive StrProp where
  | missing
  | setUndef
  | setVal (s : String)
deriving DecidableEq, Repr

/-- Own-property state of the salary field of the update DTO: the source
assigns whenever the input is not undefined, without optional chaining, so
a null input leaves a null-valued property. -/
inductive SalProp where
  | missing
  | setNull
  | setNum (n : JsNum)
deriving DecidableEq, Repr

/-- Own-property state of the hire-date field of the update DTO: whenever
the input is not undefined the Date constructor runs, so the property is
always a Date when present. -/
inductive DateProp where
  | missing
  | setDate (d : JsDate)
deriving DecidableEq, Repr

/-- UpdateEmployeeRequestDto after construction: each field keeps the
distinction between a missing own property and a present one. -/
structure UpdateEmployeeRequestDto where
  name : StrProp
  email : StrProp
  position : StrProp
  department : StrProp
  salary : SalProp
  hireDate : DateProp
deriving DecidableEq, Repr

/-- Update sanitization of a plain string field: absent stays missing, null
becomes a present-but-undefined property, a string is trimmed. -/
def updStr : RawField String → StrProp
  | .undef => .missing
  | .nullv => .setUndef
  | .val s => .setVal (jsTrim s)

/-- Update sanitization of the email field: trimmed and lowercased. -/
def updEmail : RawField String → StrProp
  | .undef => .missing
  | .nullv => .setUndef
  | .val s => .setVal (jsToLower (jsTrim s))

/-- Update sanitization of the salary field: null stays null, numeric text
goes through parseFloat. -/
def updSalary : RawField SalaryVal → SalProp
  | .undef => .missing
  | .nullv => .setNull
  | .val (.num n) => .setNum n
  | .val (.str s) => .setNum (parseFloat s)

/-- Update sanitization of the hire-date field: the Date constructor runs
on every present input; on null it coerces to the epoch (a valid date). -/
def updHireDate : RawField DateVal → DateProp
  | .undef => .missing
  | .nullv => .setDate (JsDate.valid 0)
  | .val v => .setDate (newDateOf v)

/-- The UpdateEmployeeRequestDto constructor. -/
def UpdateEmployeeRequestDto.ofData (data : CreateEmployeeData) : UpdateEmployeeRequestDto :=
  { name := updStr data.name
    email := updEmail data.email
    position := updStr data.position
    department := updStr data.department
    salary := updSalary data.salary
    hireDate := updHireDate data.hireDate }

/-- Whether a string own property exists (whatever its value). -/
def StrProp.isSet : StrProp → Bool
  | .missing => false
  | _ => true

/-- Whether the salary own property exists. -/
def SalProp.isSet : SalProp → Bool
  | .missing => false
  | _ => true

/-- Whether the hire-date own property exists. -/
def DateProp.isSet : DateProp → Bool
  | .missing => false
  | _ => true

/-- Number of own enumerable properties of the update DTO. -/
def UpdateEmployeeRequestDto.ownKeyCount (dto : UpdateEmployeeRequestDto) : Nat :=
  (if dto.name.isSet then 1 else 0) + (if dto.email.isSet then 1 else 0) +
  (if dto.position.isSet then 1 else 0) + (if dto.department.isSet then 1 else 0) +
  (if dto.salary.isSet then 1 else 0) + (if dto.hireDate.isSet then 1 else 0)

/-- The isEmpty method: no own properties at all. -/
def UpdateEmployeeRequestDto.isEmpty (dto : UpdateEmployeeRequestDto) : Bool :=
  dto.ownKeyCount == 0

/-- The validate method of UpdateEmployeeRequestDto: only present fields
are checked; the email format is checked only when the present email is
non-empty; a null-valued salary property is compared as null, and in the
source isNaN(null) is false while null <= 0 holds, so it fails the
positivity check. -/
def UpdateEmployeeRequestDto.validate (dto : UpdateEmployeeRequestDto) : ValidationResult :=
  let errors : List String := []
  let errors :=
    match dto.email with
    | .setVal e => if e != "" && !isValidEmail e then errors ++ ["Invalid email format"] else errors
    | _ => errors
  let errors :=
    match dto.salary with
    | .missing => errors
    | .setNull => errors ++ ["Salary must be a positive number"]
    | .setNum n =>
        if n.isNaNb || n.leZero then errors ++ ["Salary must be a positive number"] else errors
  let errors :=
    match dto.hireDate with
    | .missing => errors
    | .setDate d => if d.isInvalid then errors ++ ["Invalid hire date format"] else errors
  { isValid := errors.length == 0, errors := errors }

/-- Repository findById: unique lookup on the primary key. -/
def EmployeeRepository.findById (db : List Employee) (id : Int) : Option Employee :=
  db.find? (fun e => e.id == id)

/-- Repository findByEmail: unique lookup, exact match on the stored email. -/
def EmployeeRepository.findByEmail (db : List Employee) (email : String) : Option Employee :=
  db.find? (fun e => e.email == email)

/-- Next value of the serial primary-key sequence. -/
def nextEmployeeId (db : List Employee) : Int :=
  (db.map Employee.id).foldl max 0 + 1

/-- Value of a raw field, with a default for the absent cases (the source
uses non-null assertions here; validated callers always supply the value). -/
def RawField.getOr : RawField α → α → α
  | .val a, _ => a
  | _, d => d

/-- Repository create: inserts a row built from the validated DTO fields
(the source passes each DTO field with a non-null assertion; the defaults
below fill the cases a validated caller never produces), with a fresh
serial id and both timestamps set to the current time. -/
def EmployeeRepository.create (now : Int) (db : List Employee)
    (data : CreateEmployeeRequestDto) : Employee × List Employee :=
  let e : Employee :=
    { id := nextEmployeeId db
      name := data.name.getD ""
      email := data.email.getD ""
      position := data.position.getD ""
      department := data.department.getD ""
      salary := data.salary.getOr JsNum.nan
      hireDate := data.hireDate.getD JsDate.invalid
      createdAt := now
      updatedAt := now }
  (e, db ++ [e])

/-- Value carried by one entry of the repository update payload. -/
inductive UpdateValue where
  | uStr (s : String)
  | uNull
  | uNum (n : JsNum)
  | uDate (d : JsDate)
deriving DecidableEq, Repr

/-- The update payload the repository builds from the DTO: exactly the
fields whose own property exists with a value other than undefined (the
source tests each field against undefined, so a present-but-undefined
string property is excluded while a null salary property is included). -/
def EmployeeRepository.updatePayload (data : UpdateEmployeeRequestDto) :
    List (String × UpdateValue) :=
  (match data.name with | .setVal s => [("name", UpdateValue.uStr s)] | _ => []) ++
  (match data.email with | .setVal s => [("email", UpdateValue.uStr s)] | _ => []) ++
  (match data.position with | .setVal s => [("position", UpdateValue.uStr s)] | _ => []) ++
  (match data.department with | .setVal s => [("department", UpdateValue.uStr s)] | _ => []) ++
  (match data.salary with
   | .setNull => [("salary", UpdateValue.uNull)]
   | .setNum n => [("salary", UpdateValue.uNum n)]
   | .missing => []) ++
  (match data.hireDate with
   | .setDate d => [("hireDate", UpdateValue.uDate d)]
   | .missing => [])

/-- Application of the update payload to the stored row, refreshing
updatedAt.  A null salary entry of the payload would be rejected by the
persistence layer (the column is a non-nullable Decimal) and is unreachable
through the service, whose validation rejects a null salary. -/
def applyUpdate (now : Int) (e : Employee) (data : UpdateEmployeeRequestDto) : Employee :=
  { e with
    name := match data.name with | .setVal s => s | _ => e.name
    email := match data.email with | .setVal s => s | _ => e.email
    position := match data.position with | .setVal s => s | _ => e.position
    department := match data.department with | .setVal s => s | _ => e.department
    salary := match data.salary with | .setNum n => n | _ => e.salary
    hireDate := match data.hireDate with | .setDate d => d | _ => e.hireDate
    updatedAt := now }

/-- Repository update: applies the payload to the row with the given id;
a missing row is a persistence-layer error that the service does not
specially interpret. -/
def EmployeeRepository.update (now : Int) (db : List Employee) (id : Int)
    (data : UpdateEmployeeRequestDto) : Except String (Employee × List Employee) :=
  match EmployeeRepository.findById db id with
  | none => Except.error "Record to update not found"
  | some e =>
      let e2 := applyUpdate now e data
      Except.ok (e2, db.map (fun x => if x.id == id then e2 else x))

/-- Service createEmployee: construct and validate the DTO, fail with the
comma-joined validation errors, fail with Conflict when findByEmail on the
normalized email finds a row, otherwise create.  The pair also returns the
database state, unchanged on every error path. -/
def EmployeeService.createEmployee (now : Int) (db : List Employee)
    (data : CreateEmployeeData) : Except String Employee × List Employee :=
  let requestDto := CreateEmployeeRequestDto.ofData data
  let validation := requestDto.validate
  if validation.isValid = false then
    (Except.error (String.intercalate ", " validation.errors), db)
  else
    match EmployeeRepository.findByEmail db (requestDto.email.getD "") with
    | some _ => (Except.error "Employee with this email already exists", db)
    | none =>
        let created := EmployeeRepository.create now db requestDto
        (Except.ok created.1, created.2)

/-- Service updateEmployee: existence check, DTO validation, emptiness
check, then the email-uniqueness check only when a truthy email is present
and differs from the stored one, then the repository update.  The pair also
returns the database state, unchanged on every error path. -/
def EmployeeService.updateEmployee (now : Int) (db : List Employee) (id : Int)
    (data : CreateEmployeeData) : Except String Employee × List Employee :=
  match EmployeeRepository.findById db id with
  | none => (Except.error "Employee not found", db)
  | some employee =>
      let requestDto := UpdateEmployeeRequestDto.ofData data
      let validation := requestDto.validate
      if validation.isValid = false then
        (Except.error (String.intercalate ", " validation.errors), db)
      else if requestDto.isEmpty then
        (Except.error "No fields to update", db)
      else
        let afterUpdate : Except String Employee × List Employee :=
          match EmployeeRepository.update now db id requestDto with
          | Except.ok r => (Except.ok r.1, r.2)
          | Except.error m => (Except.error m, db)
        match requestDto.email with
        | StrProp.setVal s =>
            if s != "" && s != employee.email then
              match EmployeeRepository.findByEmail db s with
              | some _ => (Except.error "Employee with this email already exists", db)
              | none => afterUpdate
            else afterUpdate
        | _ => afterUpdate

lemma JsNum.posb_of_checks (n : JsNum) (ht : n.truthy = true)
    (hn : (n.isNaNb || n.leZero) = false) : n.posb = true := by
  cases n with
  | nan => simp [JsNum.truthy] at ht
  | inf => rfl
  | negInf => simp [JsNum.isNaNb, JsNum.leZero] at hn
  | num q =>
      simp only [JsNum.isNaNb, JsNum.leZero, Bool.or_eq_false_iff,
        decide_eq_false_iff_not] at hn
      simp only [JsNum.posb, decide_eq_true_eq]
      exact lt_of_not_le hn.2

lemma create_valid_salary (dto : CreateEmployeeRequestDto)
    (h : dto.validate.isValid = true) :
    ∃ n, dto.salary = RawField.val n ∧ n.posb = true := by
  have herr := (create_validate_isValid dto).mp h
  rw [create_validate_errors] at herr
  have h1 := List.append_eq_nil.mp herr
  have h2 := List.append_eq_nil.mp h1.1
  have hsal : createSalaryErrors dto.salary = [] := h2.2
  unfold createSalaryErrors at hsal
  cases hsitu : dto.salary with
  | undef => rw [hsitu] at hsal; simp at hsal
  | nullv => rw [hsitu] at hsal; simp at hsal
  | val n =>
      rw [hsitu] at hsal
      dsimp only at hsal
      refine ⟨n, rfl, ?_⟩
      by_cases ht : (!n.truthy) = true
      · rw [if_pos ht] at hsal; simp at hsal
      · rw [if_neg ht] at hsal
        by_cases hn : (n.isNaNb || n.leZero) = true
        · rw [if_pos hn] at hsal; simp at hsal
        · exact JsNum.posb_of_checks n (by simpa using ht) (by simpa using hn)

/-- C6: when findByEmail on the normalized input email finds an existing
employee, createEmployee fails with the Conflict message and leaves the
database unchanged (the create operation is never reached), so a second
employee whose email normalizes to a stored one is never persisted by this
business check. -/
theorem claimC6 (now : Int) (db : List Employee) (data : CreateEmployeeData) (s : String)
    (hvalid : (CreateEmployeeRequestDto.ofData data).validate.isValid = true)
    (hmail : (CreateEmployeeRequestDto.ofData data).email = some s)
    (hfound : (EmployeeRepository.findByEmail db s).isSome = true) :
    EmployeeService.createEmployee now db data =
      (Except.error "Employee with this email already exists", db) := by
  obtain ⟨e2, he2⟩ := Option.isSome_iff_exists.mp hfound
  simp [EmployeeService.createEmployee, hvalid, hmail, he2]

/-- A fully valid create input whose stored counterpart is sampleEmployee. -/
def dupEmailCreateData : CreateEmployeeData :=
  { name := .val "Jane Roe"
    email := .val " John@Example.COM "
    position := .val "Manager"
    department := .val "Sales"
    salary := .val (.num (.num 50000))
    hireDate := .val (.str "2023-06-01") }

/-- Witness for C6: a create whose normalized email is already stored. -/
theorem claimC6_witness :
    ((CreateEmployeeRequestDto.ofData dupEmailCreateData).validate.isValid = true ∧
      (CreateEmployeeRequestDto.ofData dupEmailCreateData).email = some "john@example.com" ∧
      (EmployeeRepository.findByEmail [sampleEmployee] "john@example.com").isSome = true) ∧
    EmployeeService.createEmployee 0 [sampleEmployee] dupEmailCreateData =
      (Except.error "Employee with this email already exists", [sampleEmployee]) :=
  ⟨⟨by decide, by decide, by decide⟩,
    claimC6 0 [sampleEmployee] dupEmailCreateData "john@example.com"
      (by decide) (by decide) (by decide)⟩

/-- C7: a create input that passes validation and the uniqueness check is
persisted with the trimmed, lowercased input email and a salary that is a
positive number in the JavaScript sense. -/
theorem claimC7 (now : Int) (db : List Employee) (data : CreateEmployeeData) (s : String)
    (hraw : data.email = RawField.val s)
    (hvalid : (CreateEmployeeRequestDto.ofData data).validate.isValid = true)
    (hfree : EmployeeRepository.findByEmail db (jsToLower (jsTrim s)) = none) :
    ∃ e db2,
      EmployeeService.createEmployee now db data = (Except.ok e, db2) ∧
      e.email = jsToLower (jsTrim s) ∧
      e.salary.posb = true := by
  have hmail : (CreateEmployeeRequestDto.ofData data).email = some (jsToLower (jsTrim s)) := by
    simp [CreateEmployeeRequestDto.ofData, trimLowerOpt, hraw]
  obtain ⟨n, hsal, hpos⟩ := create_valid_salary _ hvalid
  refine ⟨(EmployeeRepository.create now db (CreateEmployeeRequestDto.ofData data)).1,
    (EmployeeRepository.create now db (CreateEmployeeRequestDto.ofData data)).2, ?_, ?_, ?_⟩
  · simp [EmployeeService.createEmployee, hvalid, hmail, hfree]
  · simp [EmployeeRepository.create, hmail]
  · simp only [EmployeeRepository.create]
    rw [hsal]
    simpa [RawField.getOr] using hpos

/-- The valid create input of the specification example scenario. -/
def johnCreateData : CreateEmployeeData :=
  { name := .val "John Doe"
    email := .val " John@Example.com "
    position := .val "Engineer"
    department := .val "Engineering"
    salary := .val (.num (.num 75000))
    hireDate := .val (.str "2024-01-15") }

/-- Witness for C7 on an empty database. -/
theorem claimC7_witness :
    (johnCreateData.email = RawField.val " John@Example.com " ∧
      (CreateEmployeeRequestDto.ofData johnCreateData).validate.isValid = true ∧
      EmployeeRepository.findByEmail [] (jsToLower (jsTrim " John@Example.com ")) = none) ∧
    (∃ e db2,
      EmployeeService.createEmployee 0 [] johnCreateData = (Except.ok e, db2) ∧
      e.email = jsToLower (jsTrim " John@Example.com ") ∧
      e.salary.posb = true) :=
  ⟨⟨rfl, by decide, rfl⟩,
    claimC7 0 [] johnCreateData " John@Example.com " rfl (by decide) rfl⟩

/-- The update body with no recognized fields at all. -/
def noFieldsData : CreateEmployeeData := {}

/-- C5: on an existing id, an update body with no recognized fields fails
with the No-fields ValidationError and the database is returned unchanged —
the repository update operation is never invoked. -/
theorem claimC5 (now : Int) (db : List Employee) (id : Int) (e : Employee)
    (hfound : EmployeeRepository.findById db id = some e) :
    EmployeeService.updateEmployee now db id noFieldsData =
      (Except.error "No fields to update", db) := by
  have hv : (UpdateEmployeeRequestDto.ofData noFieldsData).validate.isValid = true := by decide
  have he : (UpdateEmployeeRequestDto.ofData noFieldsData).isEmpty = true := by decide
  simp [EmployeeService.updateEmployee, hfound, hv, he]

/-- Witness for C5 on a one-row database. -/
theorem claimC5_witness :
    EmployeeRepository.findById [sampleEmployee] 1 = some sampleEmployee ∧
    EmployeeService.updateEmployee 0 [sampleEmployee] 1 noFieldsData =
      (Except.error "No fields to update", [sampleEmployee]) :=
  ⟨by decide, claimC5 0 [sampleEmployee] 1 sampleEmployee (by decide)⟩

lemma updateEmployee_ok (now : Int) (db : List Employee) (id : Int)
    (data : CreateEmployeeData) (e : Employee)
    (hfound : EmployeeRepository.findById db id = some e)
    (hvalid : (UpdateEmployeeRequestDto.ofData data).validate.isValid = true)
    (hne : (UpdateEmployeeRequestDto.ofData data).isEmpty = false)
    (hmail : ∀ s, (UpdateEmployeeRequestDto.ofData data).email ≠ StrProp.setVal s) :
    EmployeeService.updateEmployee now db id data =
      (Except.ok (applyUpdate now e (UpdateEmployeeRequestDto.ofData data)),
        db.map (fun x =>
          if x.id == id then applyUpdate now e (UpdateEmployeeRequestDto.ofData data) else x)) := by
  cases hm : (UpdateEmployeeRequestDto.ofData data).email with
  | setVal s => exact absurd hm (hmail s)
  | missing =>
      simp [EmployeeService.updateEmployee, hfound, hvalid, hne, hm, EmployeeRepository.update]
  | setUndef =>
      simp [EmployeeService.updateEmployee, hfound, hvalid, hne, hm, EmployeeRepository.update]

/-- C4: for an existing employee and an update that passes validation and
the emptiness check and whose constructed DTO carries an email value: if
that email is truthy and differs from the stored one and findByEmail finds
a record holding it, updateEmployee fails with the Conflict message leaving
the database unchanged; if it equals the employee's own stored email, no
Conflict is raised and the repository update proceeds. -/
theorem claimC4 (now : Int) (db : List Employee) (id : Int) (data : CreateEmployeeData)
    (employee : Employee) (s : String)
    (hfound : EmployeeRepository.findById db id = some employee)
    (hvalid : (UpdateEmployeeRequestDto.ofData data).validate.isValid = true)
    (hnotempty : (UpdateEmployeeRequestDto.ofData data).isEmpty = false)
    (hmail : (UpdateEmployeeRequestDto.ofData data).email = StrProp.setVal s) :
    (s ≠ "" → s ≠ employee.email →
      (EmployeeRepository.findByEmail db s).isSome = true →
      EmployeeService.updateEmployee now db id data =
        (Except.error "Employee with this email already exists", db)) ∧
    (s = employee.email →
      (EmployeeService.updateEmployee now db id data).1 =
        Except.ok (applyUpdate now employee (UpdateEmployeeRequestDto.ofData data))) := by
  constructor
  · intro hne1 hne2 hsome
    obtain ⟨e2, he2⟩ := Option.isSome_iff_exists.mp hsome
    have hb1 : (s != "") = true := by simpa using hne1
    have hb2 : (s != employee.email) = true := by simpa using hne2
    simp [EmployeeService.updateEmployee, hfound, hvalid, hnotempty, hmail, hb1, hb2, he2]
  · intro heq
    subst heq
    simp [EmployeeService.updateEmployee, hfound, hvalid, hnotempty, hmail,
      EmployeeRepository.update]

/-- A stored employee whose email another update will collide with. -/
def empA : Employee :=
  { id := 1, name := "Alice Smith", email := "alice@example.com", position := "Lead",
    department := "Engineering", salary := JsNum.num 90000,
    hireDate := JsDate.valid 1600000000000, createdAt := 2, updatedAt := 2 }

/-- A second stored employee holding the email the first update targets. -/
def empB : Employee :=
  { id := 2, name := "Bob Jones", email := "bob@example.com", position := "Dev",
    department := "Engineering", salary := JsNum.num 80000,
    hireDate := JsDate.valid 1650000000000, createdAt := 1, updatedAt := 1 }

/-- Update body normalizing to the other employee's email. -/
def toBobData : CreateEmployeeData := { email := .val "Bob@Example.com" }

/-- Update body normalizing to the employee's own stored email. -/
def toSelfData : CreateEmployeeData := { email := .val "Alice@Example.com" }

/-- Witness for C4: on a two-row database, changing employee 1's email to
employee 2's email raises the Conflict, while re-submitting employee 1's
own email proceeds to the repository update. -/
theorem claimC4_witness :
    EmployeeService.updateEmployee 0 [empA, empB] 1 toBobData =
      (Except.error "Employee with this email already exists", [empA, empB]) ∧
    (EmployeeService.updateEmployee 0 [empA, empB] 1 toSelfData).1 =
      Except.ok (applyUpdate 0 empA (UpdateEmployeeRequestDto.ofData toSelfData)) :=
  ⟨(claimC4 0 [empA, empB] 1 toBobData empA "bob@example.com"
      (by decide) (by decide) (by decide) (by decide)).1
      (by decide) (by decide) (by decide),
    (claimC4 0 [empA, empB] 1 toSelfData empA "alice@example.com"
      (by decide) (by decide) (by decide) (by decide)).2 (by decide)⟩

/-- Update body whose only recognized key is a null salary. -/
def salaryNullData : CreateEmployeeData := { salary := .nullv }

/-- C9 counterexample: for the update input whose only recognized key is
salary with value null, the constructed DTO's own property is set to null
(not undefined) — the source assigns salary without optional chaining —
and the repository update payload is not empty: it contains the null
salary entry. -/
theorem claimC9_counterexample :
    (UpdateEmployeeRequestDto.ofData salaryNullData).salary = SalProp.setNull ∧
    EmployeeRepository.updatePayload (UpdateEmployeeRequestDto.ofData salaryNullData) =
      [("salary", UpdateValue.uNull)] ∧
    EmployeeRepository.updatePayload (UpdateEmployeeRequestDto.ofData salaryNullData) ≠ [] := by
  refine ⟨by decide, by decide, by decide⟩

/-- Update body whose only recognized key is a null name. -/
def nameNullData : CreateEmployeeData := { name := .nullv }

/-- Update body whose only recognized key is a null email. -/
def emailNullData : CreateEmployeeData := { email := .nullv }

/-- Update body whose only recognized key is a null position. -/
def positionNullData : CreateEmployeeData := { position := .nullv }

/-- Update body whose only recognized key is a null department. -/
def departmentNullData : CreateEmployeeData := { department := .nullv }

/-- C9 (amended): for an update input whose only recognized key is one of
the four string fields name, email, position, department with value null,
the constructed DTO has that own property set to undefined (via optional
chaining), isEmpty() is false, the repository update payload is empty, and
on an existing id updateEmployee does not fail with the No-fields error;
this does not extend to salary (property set to null, payload non-empty,
validation fails) or hireDate (property set to a valid epoch date). -/
theorem claimC9 (now : Int) (db : List Employee) (id : Int) (e : Employee)
    (hfound : EmployeeRepository.findById db id = some e) :
    ((UpdateEmployeeRequestDto.ofData nameNullData).name = StrProp.setUndef ∧
      (UpdateEmployeeRequestDto.ofData nameNullData).isEmpty = false ∧
      EmployeeRepository.updatePayload (UpdateEmployeeRequestDto.ofData nameNullData) = [] ∧
      (EmployeeService.updateEmployee now db id nameNullData).1 ≠
        Except.error "No fields to update") ∧
    ((UpdateEmployeeRequestDto.ofData emailNullData).email = StrProp.setUndef ∧
      (UpdateEmployeeRequestDto.ofData emailNullData).isEmpty = false ∧
      EmployeeRepository.updatePayload (UpdateEmployeeRequestDto.ofData emailNullData) = [] ∧
      (EmployeeService.updateEmployee now db id emailNullData).1 ≠
        Except.error "No fields to update") ∧
    ((UpdateEmployeeRequestDto.ofData positionNullData).position = StrProp.setUndef ∧
      (UpdateEmployeeRequestDto.ofData positionNullData).isEmpty = false ∧
      EmployeeRepository.updatePayload (UpdateEmployeeRequestDto.ofData positionNullData) = [] ∧
      (EmployeeService.updateEmployee now db id positionNullData).1 ≠
        Except.error "No fields to update") ∧
    ((UpdateEmployeeRequestDto.ofData departmentNullData).department = StrProp.setUndef ∧
      (UpdateEmployeeRequestDto.ofData departmentNullData).isEmpty = false ∧
      EmployeeRepository.updatePayload (UpdateEmployeeRequestDto.ofData departmentNullData) = [] ∧
      (EmployeeService.updateEmployee now db id departmentNullData).1 ≠
        Except.error "No fields to update") := by
  have hname := updateEmployee_ok now db id nameNullData e hfound (by decide) (by decide)
    (by intro s hs; simp [nameNullData, UpdateEmployeeRequestDto.ofData, updEmail] at hs)
  have hemail := updateEmployee_ok now db id emailNullData e hfound (by decide) (by decide)
    (by intro s hs; simp [emailNullData, UpdateEmployeeRequestDto.ofData, updEmail] at hs)
  have hpos := updateEmployee_ok now db id positionNullData e hfound (by decide) (by decide)
    (by intro s hs; simp [positionNullData, UpdateEmployeeRequestDto.ofData, updEmail] at hs)
  have hdept := updateEmployee_ok now db id departmentNullData e hfound (by decide) (by decide)
    (by intro s hs; simp [departmentNullData, UpdateEmployeeRequestDto.ofData, updEmail] at hs)
  refine ⟨⟨by decide, by decide, by decide, ?_⟩, ⟨by decide, by decide, by decide, ?_⟩,
    ⟨by decide, by decide, by decide, ?_⟩, ⟨by decide, by decide, by decide, ?_⟩⟩
  · rw [hname]; simp
  · rw [hemail]; simp
  · rw [hpos]; simp
  · rw [hdept]; simp

/-- Witness for the amended C9 on a one-row database. -/
theorem claimC9_witness :
    EmployeeRepository.findById [sampleEmployee] 1 = some sampleEmployee ∧
    ((UpdateEmployeeRequestDto.ofData nameNullData).name = StrProp.setUndef ∧
      (UpdateEmployeeRequestDto.ofData nameNullData).isEmpty = false ∧
      EmployeeRepository.updatePayload (UpdateEmployeeRequestDto.ofData nameNullData) = [] ∧
      (EmployeeService.updateEmployee 0 [sampleEmployee] 1 nameNullData).1 ≠
        Except.error "No fields to update") :=
  ⟨by decide, (claimC9 0 [sampleEmployee] 1 sampleEmployee (by decide)).1⟩

/-- Update body whose email is present but trims to the empty string. -/
def blankEmailUpdateData : CreateEmployeeData := { email := .val "   " }

/-- Create body identical to the example scenario except that the email
trims to the empty string. -/
def blankEmailCreateData : CreateEmployeeData :=
  { name := .val "John Doe"
    email := .val "   "
    position := .val "Engineer"
    department := .val "Engineering"
    salary := .val (.num (.num 75000))
    hireDate := .val (.str "2024-01-15") }

/-- C10: for an update input whose email is present but trims to the empty
string, validate() passes with no format error, the uniqueness check is
skipped (the theorem holds for every database state, so also when another
record holds the empty email), the empty email is included in the
repository update payload, and the stored employee's email becomes empty —
although creation with the same email reports it as missing. -/
theorem claimC10 (now : Int) (db : List Employee) (id : Int) (e : Employee)
    (hfound : EmployeeRepository.findById db id = some e) :
    (UpdateEmployeeRequestDto.ofData blankEmailUpdateData).validate.isValid = true ∧
    "Invalid email format" ∉
      (UpdateEmployeeRequestDto.ofData blankEmailUpdateData).validate.errors ∧
    ("email", UpdateValue.uStr "") ∈
      EmployeeRepository.updatePayload (UpdateEmployeeRequestDto.ofData blankEmailUpdateData) ∧
    (EmployeeService.updateEmployee now db id blankEmailUpdateData).1 =
      Except.ok (applyUpdate now e (UpdateEmployeeRequestDto.ofData blankEmailUpdateData)) ∧
    (applyUpdate now e (UpdateEmployeeRequestDto.ofData blankEmailUpdateData)).email = "" ∧
    "Email is required" ∈ ((CreateEmployeeRequestDto.ofData blankEmailCreateData).validate).errors := by
  have hmail : (UpdateEmployeeRequestDto.ofData blankEmailUpdateData).email =
      StrProp.setVal "" := by decide
  have hv : (UpdateEmployeeRequestDto.ofData blankEmailUpdateData).validate.isValid = true := by
    decide
  have hne : (UpdateEmployeeRequestDto.ofData blankEmailUpdateData).isEmpty = false := by decide
  refine ⟨hv, by decide, by decide, ?_, ?_, by decide⟩
  · simp [EmployeeService.updateEmployee, hfound, hv, hne, hmail, EmployeeRepository.update]
  · simp [applyUpdate, hmail]

/-- Witness for C10 on a one-row database. -/
theorem claimC10_witness :
    EmployeeRepository.findById [sampleEmployee] 1 = some sampleEmployee ∧
    ((UpdateEmployeeRequestDto.ofData blankEmailUpdateData).validate.isValid = true ∧
      "Invalid email format" ∉
        (UpdateEmployeeRequestDto.ofData blankEmailUpdateData).validate.errors ∧
      ("email", UpdateValue.uStr "") ∈
        EmployeeRepository.updatePayload (UpdateEmployeeRequestDto.ofData blankEmailUpdateData) ∧
      (EmployeeService.updateEmployee 7 [sampleEmployee] 1 blankEmailUpdateData).1 =
        Except.ok (applyUpdate 7 sampleEmployee
          (UpdateEmployeeRequestDto.ofData blankEmailUpdateData)) ∧
      (applyUpdate 7 sampleEmployee
          (UpdateEmployeeRequestDto.ofData blankEmailUpdateData)).email = "" ∧
      "Email is required" ∈
        ((CreateEmployeeRequestDto.ofData blankEmailCreateData).validate).errors) :=
  ⟨by decide, claimC10 7 [sampleEmployee] 1 sampleEmployee (by decide)⟩
